import Mathlib

/-!
Verification of the order/inventory core of the diva-backend-prod repository.

The JavaScript source is shallowly embedded as pure Lean functions over an
explicit `Store` state (products, orders, order items, users).  Supabase
row reads (`.select().single()`, `.in`, `.contains`, …) become list lookups,
row updates become list maps keyed by id, and inserts append to the lists.
Money amounts are embedded as `Rat` (JS numbers used in exact decimal
arithmetic), quantities and loyalty points as `Int` (they may go negative
in JS), and timestamps as `Nat` milliseconds — the source compares ISO-8601
timestamp strings, whose lexicographic order coincides with the numeric
order of the instants they denote.  Fire-and-forget e-mail dispatch and
console logging have no effect on the store and are not modelled.
-/

namespace Diva

/-- A row of the `product` table (productController.js).  Only the columns the
order/inventory core reads or writes are carried. -/
structure Product where
  id : Nat
  title : String
  price : Rat
  quantity : Int
  brand_segment : String
  category_slug : String
  best_seller : Bool
  deriving Repr, DecidableEq

/-- The nested `pickup` sub-object of the `shipping_info` metadata bag
(orderController.js, createPickupOrder / cancelExpiredPickupHolds). -/
structure Pickup where
  reservation_expires_at : Option Nat
  expired_at : Option Nat
  deriving Repr, DecidableEq

/-- The JSON `shipping_info` metadata bag on an order row.  Absent JSON keys
are `none`. -/
structure ShippingInfo where
  shipping_method : Option String
  payment_method : Option String
  payment_status : Option String
  fee : Option Rat
  pickup : Option Pickup
  deriving Repr, DecidableEq

/-- A row of the `order` table. -/
structure Order where
  id : Nat
  user_id : Nat
  email : String
  total_amount : Rat
  status : String
  tracking_code : String
  shipping_info : Option ShippingInfo
  points_used : Int
  deriving Repr, DecidableEq

/-- A row of the `order_item` table. -/
structure OrderItem where
  order_id : Nat
  product_id : Nat
  quantity : Int
  price : Rat
  product_brand_segment : Option String
  deriving Repr, DecidableEq

/-- A row of the `user` table (only the loyalty-points balance is used by the
order core). -/
structure User where
  id : Nat
  points : Int
  deriving Repr, DecidableEq

/-- The database state the order/inventory core reads and writes.
`nextOrderId` models the id the database would assign to the next inserted
order row. -/
structure Store where
  products : List Product
  orders : List Order
  order_items : List OrderItem
  users : List User
  nextOrderId : Nat
  deriving Repr, DecidableEq

/-- ASCII lowercasing of one character (JS `toLowerCase` restricted to the
ASCII statuses and flags this backend compares). -/
def lowerChar (c : Char) : Char :=
  if 65 ≤ c.toNat ∧ c.toNat ≤ 90 then Char.ofNat (c.toNat + 32) else c

/-- ASCII lowercasing of a string; stands for JS `.toLowerCase()`
(`String.toLower` itself is not kernel-computable). -/
def lowerStr (s : String) : String :=
  String.mk (s.data.map lowerChar)

/-! ## Inventory Ledger (productController.js)

`decrementProductQuantity` / `incrementProductQuantity` normalise their `qty`
argument with `Number.parseInt` and fall back to `1` when it is absent,
non-numeric or non-positive; with an integer argument this is the
normalisation below. -/

/-- `const n = Number.parseInt(String(qty), 10); const pQty = Number.isFinite(n) && n > 0 ? n : 1;` -/
def normQty (qty : Int) : Int :=
  if 0 < qty then qty else 1

/-- `decrementProductQuantity` (productController.js).  The preferred DB RPC is
not part of this repository; embedded is the in-repo read-then-write fallback:
read the current quantity, write `Math.max(0, currentQty - pQty)`, return the
updated row.  `none` models the NotFound / persistence error result
(`{ data: null, error }`). -/
def decrementProductQuantity (ps : List Product) (productId : Nat) (qty : Int) :
    List Product × Option Product :=
  let pQty := normQty qty
  match ps.find? (fun p => p.id == productId) with
  | none => (ps, none)
  | some p =>
      let newQty := max 0 (p.quantity - pQty)
      (ps.map (fun q => if q.id == productId then { q with quantity := newQty } else q),
       some { p with quantity := newQty })

/-- `incrementProductQuantity` (productController.js): read the current
quantity, write `current + inc`, return the updated row. -/
def incrementProductQuantity (ps : List Product) (productId : Nat) (qty : Int) :
    List Product × Option Product :=
  let inc := normQty qty
  match ps.find? (fun p => p.id == productId) with
  | none => (ps, none)
  | some p =>
      let newQty := p.quantity + inc
      (ps.map (fun q => if q.id == productId then { q with quantity := newQty } else q),
       some { p with quantity := newQty })

/-- Run a sequence of inventory decrements (harness used to state the
"any sequence of decrements" invariant). -/
def applyDecrements (ps : List Product) (ds : List (Nat × Int)) : List Product :=
  match ds with
  | [] => ps
  | d :: rest => applyDecrements (decrementProductQuantity ps d.1 d.2).1 rest

/-- The quantity of the product row with id `pid`, as a `.single()` read
would return it. -/
def qtyOf (ps : List Product) (pid : Nat) : Option Int :=
  (ps.find? (fun p => p.id == pid)).map (fun p => p.quantity)

theorem decrement_mem_nonneg {ps : List Product} (h : ∀ p ∈ ps, 0 ≤ p.quantity)
    (pid : Nat) (qty : Int) :
    ∀ p ∈ (decrementProductQuantity ps pid qty).1, 0 ≤ p.quantity := by
  unfold decrementProductQuantity
  cases hf : ps.find? (fun p => p.id == pid) with
  | none => simpa using h
  | some q =>
      intro p hp
      simp only [List.mem_map] at hp
      obtain ⟨r, hr, rfl⟩ := hp
      by_cases hid : r.id == pid
      · simp [hid]
      · simpa [hid] using h r hr

theorem applyDecrements_nonneg {ps : List Product} (ds : List (Nat × Int))
    (h : ∀ p ∈ ps, 0 ≤ p.quantity) :
    ∀ p ∈ applyDecrements ps ds, 0 ≤ p.quantity := by
  induction ds generalizing ps with
  | nil => simpa [applyDecrements] using h
  | cons d rest ih =>
      exact ih (decrement_mem_nonneg h d.1 d.2)

/-- **C1.** Inventory decrements clamp at zero: starting from any store whose
quantities are non-negative, after any sequence of decrements every product
quantity is still non-negative; moreover a single `decrementProductQuantity`
call with a positive `qty` on an existing product writes
`max 0 (current - qty)` and returns the updated record. -/
theorem decrement_clamps_at_zero (ps : List Product) (ds : List (Nat × Int))
    (h : ∀ p ∈ ps, 0 ≤ p.quantity) :
    (∀ p ∈ applyDecrements ps ds, 0 ≤ p.quantity) ∧
    (∀ pid qty p, 0 < qty → ps.find? (fun q => q.id == pid) = some p →
      (decrementProductQuantity ps pid qty).2
          = some { p with quantity := max 0 (p.quantity - qty) } ∧
      qtyOf (decrementProductQuantity ps pid qty).1 pid
          = some (max 0 (p.quantity - qty))) := by
  refine ⟨applyDecrements_nonneg ds h, ?_⟩
  intro pid qty p hq hfind
  have hn : normQty qty = qty := if_pos hq
  constructor
  · simp [decrementProductQuantity, hfind, hn]
  · have hmap : ((ps.map (fun q => if q.id == pid then
        { q with quantity := max 0 (p.quantity - normQty qty) } else q)).find?
          (fun q => q.id == pid))
        = some { p with quantity := max 0 (p.quantity - normQty qty) } := by
      rw [List.find?_map]
      have hcomp : ((fun q : Product => q.id == pid) ∘
          (fun q : Product => if q.id == pid then
            { q with quantity := max 0 (p.quantity - normQty qty) } else q))
          = fun q : Product => q.id == pid := by
        funext q
        by_cases hid : q.id = pid <;> simp [hid]
      rw [hcomp, hfind]
      have hpid : p.id = pid := by
        have := List.find?_some hfind
        simpa using this
      simp [hpid]
    simp only [decrementProductQuantity, hfind, qtyOf]
    rw [hmap]
    simp [hn]

/-- Witness for C1 at a concrete store: one product with quantity 5,
decremented by 3 and then over-decremented by 99. -/
theorem decrement_clamps_at_zero_witness :
    (∀ p ∈ [({ id := 1, title := "P1", price := 10, quantity := 5,
                brand_segment := "nails", category_slug := "vinyl",
                best_seller := false } : Product)], 0 ≤ p.quantity) ∧
    ((∀ p ∈ applyDecrements
        [({ id := 1, title := "P1", price := 10, quantity := 5,
            brand_segment := "nails", category_slug := "vinyl",
            best_seller := false } : Product)] [(1, 3), (1, 99)], 0 ≤ p.quantity) ∧
      (∀ pid qty p, 0 < qty →
        [({ id := 1, title := "P1", price := 10, quantity := 5,
            brand_segment := "nails", category_slug := "vinyl",
            best_seller := false } : Product)].find? (fun q => q.id == pid) = some p →
        (decrementProductQuantity
            [({ id := 1, title := "P1", price := 10, quantity := 5,
                brand_segment := "nails", category_slug := "vinyl",
                best_seller := false } : Product)] pid qty).2
            = some { p with quantity := max 0 (p.quantity - qty) } ∧
        qtyOf (decrementProductQuantity
            [({ id := 1, title := "P1", price := 10, quantity := 5,
                brand_segment := "nails", category_slug := "vinyl",
                best_seller := false } : Product)] pid qty).1 pid
            = some (max 0 (p.quantity - qty)))) :=
  ⟨by decide, decrement_clamps_at_zero _ _ (by decide)⟩

/-! ## Generic id-keyed row update lemmas -/

theorem find?_id_map {α : Type} (idf : α → Nat) (f : α → α)
    (hf : ∀ a, idf (f a) = idf a) (l : List α) (k : Nat) :
    (l.map f).find? (fun a => idf a == k) = (l.find? (fun a => idf a == k)).map f := by
  rw [List.find?_map]
  have hcomp : ((fun a => idf a == k) ∘ f) = fun a => idf a == k := by
    funext a
    simp [Function.comp, hf]
  rw [hcomp]

theorem increment_ids (ps : List Product) (pid : Nat) (qty : Int) :
    ((incrementProductQuantity ps pid qty).1).map (fun p => p.id) = ps.map (fun p => p.id) := by
  unfold incrementProductQuantity
  cases hf : ps.find? (fun p => p.id == pid) with
  | none => rfl
  | some p =>
      simp only [List.map_map]
      congr 1
      funext q
      by_cases hid : q.id = pid <;> simp [hid]

theorem increment_find?_eq (ps : List Product) (pid k : Nat) (qty : Int) :
    ((incrementProductQuantity ps pid qty).1.find? (fun p => p.id == k)).isSome
      = (ps.find? (fun p => p.id == k)).isSome := by
  unfold incrementProductQuantity
  cases hf : ps.find? (fun p => p.id == pid) with
  | none => rfl
  | some p =>
      simp only
      rw [find?_id_map (fun p => p.id)
        (fun q => if q.id == pid then { q with quantity := p.quantity + normQty qty } else q)
        (by intro a; by_cases hid : a.id = pid <;> simp [hid]) ps k]
      simp

theorem increment_result_isSome (ps : List Product) (pid : Nat) (qty : Int) :
    ((incrementProductQuantity ps pid qty).2).isSome
      = (ps.find? (fun p => p.id == pid)).isSome := by
  unfold incrementProductQuantity
  cases hf : ps.find? (fun p => p.id == pid) <;> simp

theorem qtyOf_increment (ps : List Product) (pid2 pid : Nat) (qty : Int) :
    qtyOf (incrementProductQuantity ps pid2 qty).1 pid
      = if pid = pid2 then (qtyOf ps pid).map (fun x => x + normQty qty)
        else qtyOf ps pid := by
  unfold incrementProductQuantity qtyOf
  cases hf : ps.find? (fun p => p.id == pid2) with
  | none =>
      by_cases h : pid = pid2
      · subst h; rw [hf]; simp
      · simp [h]
  | some p =>
      simp only
      rw [find?_id_map (fun p => p.id)
        (fun q => if q.id == pid2 then { q with quantity := p.quantity + normQty qty } else q)
        (by intro a; by_cases hid : a.id = pid2 <;> simp [hid]) ps pid]
      by_cases h : pid = pid2
      · subst h
        rw [hf]
        have hpid : p.id = pid := by simpa using List.find?_some hf
        simp [hpid]
      · cases hg : ps.find? (fun q => q.id == pid) with
        | none => simp [h]
        | some r =>
            have hrid : r.id = pid := by simpa using List.find?_some hg
            simp [h, hrid]

/-! ## Restock loop (cancelOrder / cancelExpiredPickupHolds item loops)

Both cancellation paths loop over an order's items calling
`incrementProductQuantity(it.product_id, it.quantity)` and tally per-item
success/failure without aborting. -/

/-- The per-item restock loop: returns the updated products together with the
(success, failure) tally. -/
def restockItems (ps : List Product) (items : List OrderItem) : List Product × Nat × Nat :=
  match items with
  | [] => (ps, 0, 0)
  | it :: rest =>
      let r := incrementProductQuantity ps it.product_id it.quantity
      let tail := restockItems r.1 rest
      (tail.1, (if r.2.isSome then 1 else 0) + tail.2.1,
       (if r.2.isSome then 0 else 1) + tail.2.2)

/-- Total normalised restock amount a list of order items contributes to the
product with id `pid`. -/
def restockSum (items : List OrderItem) (pid : Nat) : Int :=
  match items with
  | [] => 0
  | it :: rest =>
      (if it.product_id == pid then normQty it.quantity else 0) + restockSum rest pid

/-- Total recorded quantity (no normalisation) a list of order items carries
for the product with id `pid`. -/
def itemQtySum (items : List OrderItem) (pid : Nat) : Int :=
  match items with
  | [] => 0
  | it :: rest =>
      (if it.product_id == pid then it.quantity else 0) + itemQtySum rest pid

/-- Number of items of the list whose referenced product exists in `ps`
(the items whose restock increment succeeds). -/
def foundCount (ps : List Product) (items : List OrderItem) : Nat :=
  match items with
  | [] => 0
  | it :: rest =>
      (if (ps.find? (fun p => p.id == it.product_id)).isSome then 1 else 0)
        + foundCount ps rest

/-- Number of items of the list whose referenced product is missing from `ps`
(the items whose restock increment fails). -/
def missCount (ps : List Product) (items : List OrderItem) : Nat :=
  match items with
  | [] => 0
  | it :: rest =>
      (if (ps.find? (fun p => p.id == it.product_id)).isSome then 0 else 1)
        + missCount ps rest

theorem foundCount_increment (ps : List Product) (pid : Nat) (qty : Int)
    (items : List OrderItem) :
    foundCount (incrementProductQuantity ps pid qty).1 items = foundCount ps items := by
  induction items with
  | nil => rfl
  | cons it rest ih => simp [foundCount, increment_find?_eq, ih]

theorem missCount_increment (ps : List Product) (pid : Nat) (qty : Int)
    (items : List OrderItem) :
    missCount (incrementProductQuantity ps pid qty).1 items = missCount ps items := by
  induction items with
  | nil => rfl
  | cons it rest ih => simp [missCount, increment_find?_eq, ih]

theorem restockItems_counts (items : List OrderItem) (ps : List Product) :
    (restockItems ps items).2.1 = foundCount ps items ∧
    (restockItems ps items).2.2 = missCount ps items := by
  induction items generalizing ps with
  | nil => exact ⟨rfl, rfl⟩
  | cons it rest ih =>
      have h1 := (ih (incrementProductQuantity ps it.product_id it.quantity).1).1
      have h2 := (ih (incrementProductQuantity ps it.product_id it.quantity).1).2
      constructor
      · simp [restockItems, foundCount, h1, increment_result_isSome,
          foundCount_increment]
      · simp [restockItems, missCount, h2, increment_result_isSome,
          missCount_increment]

theorem foundCount_add_missCount (ps : List Product) (items : List OrderItem) :
    foundCount ps items + missCount ps items = items.length := by
  induction items with
  | nil => rfl
  | cons it rest ih =>
      by_cases h : (ps.find? (fun p => p.id == it.product_id)).isSome <;>
        simp [foundCount, missCount, h] <;> omega

theorem qtyOf_restockItems (items : List OrderItem) (ps : List Product) (pid : Nat) :
    qtyOf (restockItems ps items).1 pid
      = (qtyOf ps pid).map (fun x => x + restockSum items pid) := by
  induction items generalizing ps with
  | nil => cases h : qtyOf ps pid <;> simp [restockItems, restockSum, h]
  | cons it rest ih =>
      simp only [restockItems, restockSum]
      rw [ih, qtyOf_increment ps it.product_id pid it.quantity]
      by_cases h : pid = it.product_id
      · simp only [h, beq_self_eq_true, if_pos, if_true]
        cases hq : qtyOf ps it.product_id <;> simp [hq, Int.add_assoc]
      · have hne : (it.product_id == pid) = false := by
          simp [Ne.symm h]
        simp [h, hne]

theorem restockSum_eq_itemQtySum (items : List OrderItem)
    (h : ∀ it ∈ items, 0 < it.quantity) (pid : Nat) :
    restockSum items pid = itemQtySum items pid := by
  induction items with
  | nil => rfl
  | cons it rest ih =>
      have hpos : 0 < it.quantity := h it (by simp)
      have : normQty it.quantity = it.quantity := if_pos hpos
      simp only [restockSum, itemQtySum, this]
      rw [ih (fun x hx => h x (by simp [hx]))]

/-! ## cancelOrder (orderController.js) -/

/-- Result of the customer/admin cancel endpoint.  `notFound` stands for the
missing-order failure response, `forbidden` for the 403 ownership check,
`notPending` for the 400 "cannot be canceled after it has been processed"
response, and `canceled` carries the per-item restock success/failure tally
returned in the response body. -/
inductive CancelResult where
  | notFound
  | forbidden
  | notPending
  | canceled (success failed : Nat)
  deriving Repr, DecidableEq

/-- `cancelOrder` (orderController.js): load the order, check ownership or
admin role, require status "Pending", restock every order item (counting
per-item success/failure without aborting), set the status to "Canceled" and
return the tally.  E-mail dispatch is fire-and-forget and not modelled. -/
def cancelOrder (s : Store) (callerId : Nat) (callerRole : String) (orderId : Nat) :
    Store × CancelResult :=
  match s.orders.find? (fun o => o.id == orderId) with
  | none => (s, .notFound)
  | some order =>
      if order.user_id != callerId && callerRole != "admin" then (s, .forbidden)
      else if order.status != "Pending" then (s, .notPending)
      else
        let items := s.order_items.filter (fun it => it.order_id == orderId)
        let r := restockItems s.products items
        let orders := s.orders.map
          (fun o => if o.id == orderId then { o with status := "Canceled" } else o)
        ({ s with products := r.1, orders := orders }, .canceled r.2.1 r.2.2)

/-- The status of the order row with id `oid`, as a re-read would return it. -/
def statusOf (s : Store) (oid : Nat) : Option String :=
  (s.orders.find? (fun o => o.id == oid)).map (fun o => o.status)

/-- **C2.** Cancelling a Pending order (by its owner or an admin) restocks
each item's product by exactly the quantity recorded on the order item,
sets the order's status to "Canceled", and returns a per-item success/failure
tally covering every item; per-item restock failures (missing products) do
not block the cancellation. -/
theorem cancelOrder_pending_restocks_exactly (s : Store) (callerId : Nat)
    (callerRole : String) (orderId : Nat) (o : Order)
    (hfind : s.orders.find? (fun x => x.id == orderId) = some o)
    (hauth : o.user_id = callerId ∨ callerRole = "admin")
    (hpending : o.status = "Pending")
    (hqty : ∀ it ∈ s.order_items, it.order_id = orderId → 0 < it.quantity) :
    (cancelOrder s callerId callerRole orderId).2
        = .canceled
            (foundCount s.products (s.order_items.filter (fun it => it.order_id == orderId)))
            (missCount s.products (s.order_items.filter (fun it => it.order_id == orderId))) ∧
    foundCount s.products (s.order_items.filter (fun it => it.order_id == orderId))
        + missCount s.products (s.order_items.filter (fun it => it.order_id == orderId))
        = (s.order_items.filter (fun it => it.order_id == orderId)).length ∧
    statusOf (cancelOrder s callerId callerRole orderId).1 orderId = some "Canceled" ∧
    (∀ pid, qtyOf (cancelOrder s callerId callerRole orderId).1.products pid
        = (qtyOf s.products pid).map
            (fun x => x + itemQtySum
              (s.order_items.filter (fun it => it.order_id == orderId)) pid)) ∧
    (cancelOrder s callerId callerRole orderId).1.order_items = s.order_items := by
  have hguard : (o.user_id != callerId && callerRole != "admin") = false := by
    rcases hauth with h | h <;> simp [h]
  have hstat : (o.status != "Pending") = false := by simp [hpending]
  have hitems : ∀ it ∈ s.order_items.filter (fun it => it.order_id == orderId),
      0 < it.quantity := by
    intro it hit
    have := List.mem_filter.mp hit
    exact hqty it this.1 (by simpa using this.2)
  unfold cancelOrder
  rw [hfind]
  simp only [hguard, hstat, Bool.false_eq_true, if_false]
  refine ⟨?_, ?_, ?_, ?_, trivial⟩
  · have hc := restockItems_counts
      (s.order_items.filter (fun it => it.order_id == orderId)) s.products
    rw [hc.1, hc.2]
  · exact foundCount_add_missCount _ _
  · unfold statusOf
    simp only
    rw [find?_id_map (fun o => o.id)
      (fun x => if x.id == orderId then { x with status := "Canceled" } else x)
      (by intro a; by_cases hid : a.id = orderId <;> simp [hid]) s.orders orderId]
    rw [hfind]
    have hoid : o.id = orderId := by simpa using List.find?_some hfind
    simp [hoid]
  · intro pid
    rw [qtyOf_restockItems]
    rw [restockSum_eq_itemQtySum _ hitems]

/-! ## createOrder (orderController.js, standard checkout) -/

/-- JS `a || b` where `a` is an optional string and the empty string is
falsy. -/
def jsOrStr (a : Option String) (b : String) : String :=
  match a with
  | none => b
  | some x => if x == "" then b else x

/-- JS `Number(it.quantity || 1)`: an absent or zero quantity falls back
to 1; any other number (negatives included) is kept. -/
def reqQty (q : Option Int) : Int :=
  match q with
  | none => 1
  | some n => if n == 0 then 1 else n

/-- An entry of the request's `items` array.  `id` is `it.id || it.product_id`
(`none` when the caller supplied neither). -/
structure ReqItem where
  id : Option Nat
  quantity : Option Int
  price : Option Rat
  brandSegment : Option String
  deriving Repr, DecidableEq

/-- The request body of `createOrder`.  `userId = 0` models a falsy
(absent) user id. -/
structure CreateOrderReq where
  userId : Nat
  email : String
  items : List ReqItem
  totalAmount : Rat
  status : Option String
  trackingCode : Option String
  shippingInfo : Option ShippingInfo
  pointsUsed : Option Int
  isLocalPickup : Bool
  isLocal : Bool
  deriving Repr, DecidableEq

/-- Result of `createOrder`: 400 for missing required fields, the catch-all
500 when the user row cannot be loaded, 201 with the persisted order, the
points used and the applied discount otherwise.  (Order/item insert failures
and the compensating delete cannot occur in the pure store model.) -/
inductive CreateResult where
  | badRequest
  | userLookupFailed
  | created (order : Order) (pointsUsed : Option Int) (discountApplied : Rat)
  deriving Repr, DecidableEq

/-- Brand-segment snapshot resolution for one order item of `createOrder`:
take the caller-supplied segment lowercased, else look it up on the live
product row; an empty result is stored as null. -/
def resolveBrand (ps : List Product) (it : ReqItem) : Option String :=
  let b := lowerStr (it.brandSegment.getD "")
  let b := if b == "" then
      match it.id with
      | some pid =>
          match ps.find? (fun p => p.id == pid) with
          | some prod => if prod.brand_segment == "" then b else lowerStr prod.brand_segment
          | none => b
      | none => b
    else b
  if b == "" then none else some b

/-- The per-item inventory decrement loop of `createOrder` (step 3): items
with a missing product id are skipped; per-item decrement failures do not
abort (the store is simply left unchanged for them). -/
def decrementAllItems (ps : List Product) (items : List ReqItem) : List Product :=
  match items with
  | [] => ps
  | it :: rest =>
      match it.id with
      | none => decrementAllItems ps rest
      | some pid =>
          decrementAllItems (decrementProductQuantity ps pid (reqQty it.quantity)).1 rest

/-- `createOrder` (orderController.js): validate required fields, load the
buyer's points, compute the points-tier discount and the shipping fee
(zero for local pickup), persist the order then its items (unit-price and
brand-segment snapshots), decrement inventory per item (non-fatal), and
update the buyer's points balance to
`old − pointsUsed + floor(finalTotal)`.  E-mails are fire-and-forget and not
modelled. -/
def createOrder (s : Store) (req : CreateOrderReq) : Store × CreateResult :=
  if req.userId == 0 || req.email == "" || req.items.isEmpty
      || req.shippingInfo.isNone then
    (s, .badRequest)
  else
    match s.users.find? (fun u => u.id == req.userId) with
    | none => (s, .userLookupFailed)
    | some user =>
        let userPoints := user.points
        let discount : Rat := 0
        let discount := if req.pointsUsed == some 50
          then req.totalAmount * (5 / 100 : Rat) else discount
        let discount := if req.pointsUsed == some 100
          then req.totalAmount * (10 / 100 : Rat) else discount
        let shippingFee : Rat :=
          if req.isLocalPickup || req.isLocal then 0
          else ((req.shippingInfo.bind (fun si => si.fee)).getD 0)
        let finalTotal := max 0 (req.totalAmount - discount + shippingFee)
        let newOrder : Order := {
          id := s.nextOrderId,
          user_id := req.userId,
          email := req.email,
          total_amount := finalTotal,
          status := jsOrStr req.status "Pending",
          tracking_code := jsOrStr req.trackingCode "Processing",
          shipping_info := req.shippingInfo,
          points_used := req.pointsUsed.getD 0 }
        let itemsPayload := req.items.map (fun it =>
          ({ order_id := newOrder.id,
             product_id := it.id.getD 0,
             quantity := reqQty it.quantity,
             price := it.price.getD 0,
             product_brand_segment := resolveBrand s.products it } : OrderItem))
        let products := decrementAllItems s.products req.items
        let newPointsBalance := userPoints - req.pointsUsed.getD 0 + finalTotal.floor
        let users := s.users.map (fun u =>
          if u.id == req.userId then { u with points := newPointsBalance } else u)
        ({ products := products,
           orders := s.orders ++ [newOrder],
           order_items := s.order_items ++ itemsPayload,
           users := users,
           nextOrderId := s.nextOrderId + 1 },
         .created newOrder req.pointsUsed discount)

theorem pointsOf_map_set (users : List User) (uid : Nat) (newPts : Int) (u : User)
    (hfind : users.find? (fun x => x.id == uid) = some u) :
    ((users.map (fun x => if x.id == uid then { x with points := newPts } else x)).find?
        (fun x => x.id == uid)).map (fun x => x.points) = some newPts := by
  rw [find?_id_map (fun x => x.id)
    (fun x => if x.id == uid then { x with points := newPts } else x)
    (by intro a; by_cases hid : a.id = uid <;> simp [hid]) users uid]
  rw [hfind]
  have huid : u.id = uid := by simpa using List.find?_some hfind
  simp [huid]

/-- The loyalty-points balance of the user row with id `uid`. -/
def pointsOf (s : Store) (uid : Nat) : Option Int :=
  (s.users.find? (fun u => u.id == uid)).map (fun u => u.points)

/-- **C7.** `createOrder` computes the final total as
`max 0 (totalAmount − discount + shippingFee)` with a 5% discount at exactly
50 points used and a 10% discount at exactly 100, and a zero shipping fee for
local-pickup orders; the order is persisted and returned with that total and
the applied discount. -/
theorem createOrder_final_total (s : Store) (req : CreateOrderReq)
    (si : ShippingInfo) (u : User)
    (h1 : req.userId ≠ 0) (h2 : req.email ≠ "") (h3 : req.items ≠ [])
    (hsi : req.shippingInfo = some si)
    (huser : s.users.find? (fun x => x.id == req.userId) = some u) :
    ∃ ord,
      (createOrder s req).2 = .created ord req.pointsUsed
          (if req.pointsUsed = some 50 then req.totalAmount * (5 / 100 : Rat)
           else if req.pointsUsed = some 100 then req.totalAmount * (10 / 100 : Rat)
           else 0) ∧
      ord.total_amount = max 0 (req.totalAmount
          - (if req.pointsUsed = some 50 then req.totalAmount * (5 / 100 : Rat)
             else if req.pointsUsed = some 100 then req.totalAmount * (10 / 100 : Rat)
             else 0)
          + (if req.isLocalPickup || req.isLocal then 0 else si.fee.getD 0)) := by
  have hval : (req.userId == 0 || req.email == "" || req.items.isEmpty) = false := by
    simp [h1, h2, h3]
  have hdisc :
      (if req.pointsUsed == some 100 then req.totalAmount * (10 / 100 : Rat)
       else if req.pointsUsed == some 50 then req.totalAmount * (5 / 100 : Rat)
       else 0)
        = (if req.pointsUsed = some 50 then req.totalAmount * (5 / 100 : Rat)
           else if req.pointsUsed = some 100 then req.totalAmount * (10 / 100 : Rat)
           else 0) := by
    by_cases h50 : req.pointsUsed = some 50
    · simp [h50]
    · by_cases h100 : req.pointsUsed = some 100 <;> simp [h50, h100]
  simp only [createOrder, hsi, Option.isNone_some, Bool.or_false, hval,
    Bool.false_eq_true, if_false, huser, Option.bind_some]
  rw [← hdisc]
  exact ⟨_, rfl, rfl⟩

/-- Witness for C7 at the spec's example: one item priced 10.00 × 2,
`pointsUsed = 50`, `totalAmount = 20.00`, local pickup → discount 1.00 and
final total 19.00. -/
theorem createOrder_final_total_witness :
    ((7 : Nat) ≠ 0) ∧
    (∃ ord,
      (createOrder
        { products := [{ id := 1, title := "P1", price := 10, quantity := 5,
                          brand_segment := "nails", category_slug := "vinyl",
                          best_seller := false }],
          orders := [], order_items := [],
          users := [{ id := 7, points := 120 }], nextOrderId := 31 }
        { userId := 7, email := "b@x.com",
          items := [{ id := some 1, quantity := some 2, price := some 10,
                      brandSegment := none }],
          totalAmount := 20, status := none, trackingCode := none,
          shippingInfo := some { shipping_method := some "local_pickup",
                                  payment_method := none, payment_status := none,
                                  fee := none, pickup := none },
          pointsUsed := some 50, isLocalPickup := true, isLocal := false }).2
        = .created ord (some 50)
            (if (some 50 : Option Int) = some 50 then (20 : Rat) * (5 / 100 : Rat)
             else if (some 50 : Option Int) = some 100 then (20 : Rat) * (10 / 100 : Rat)
             else 0) ∧
      ord.total_amount = max 0 ((20 : Rat)
          - (if (some 50 : Option Int) = some 50 then (20 : Rat) * (5 / 100 : Rat)
             else if (some 50 : Option Int) = some 100 then (20 : Rat) * (10 / 100 : Rat)
             else 0)
          + (if true || false then 0 else (none : Option Rat).getD 0))) ∧
    ((20 : Rat) * (5 / 100 : Rat) = 1) ∧
    (max 0 ((20 : Rat) - (20 : Rat) * (5 / 100 : Rat) + 0) = 19) :=
  ⟨by decide,
   createOrder_final_total
     { products := [{ id := 1, title := "P1", price := 10, quantity := 5,
                       brand_segment := "nails", category_slug := "vinyl",
                       best_seller := false }],
       orders := [], order_items := [],
       users := [{ id := 7, points := 120 }], nextOrderId := 31 }
     { userId := 7, email := "b@x.com",
       items := [{ id := some 1, quantity := some 2, price := some 10,
                   brandSegment := none }],
       totalAmount := 20, status := none, trackingCode := none,
       shippingInfo := some { shipping_method := some "local_pickup",
                               payment_method := none, payment_status := none,
                               fee := none, pickup := none },
       pointsUsed := some 50, isLocalPickup := true, isLocal := false }
     { shipping_method := some "local_pickup", payment_method := none,
       payment_status := none, fee := none, pickup := none }
     { id := 7, points := 120 }
     (by decide) (by decide) (by decide) rfl (by decide),
   by norm_num,
   by
     rw [show ((20 : Rat) - 20 * (5 / 100 : Rat) + 0) = 19 by norm_num]
     exact max_eq_right (by norm_num)⟩

/-- **C8.** On a successful standard checkout the buyer's points balance is
set to `old − pointsUsed + floor(finalTotal)` where `finalTotal` is the
persisted order total. -/
theorem createOrder_points_balance (s : Store) (req : CreateOrderReq)
    (si : ShippingInfo) (u : User)
    (h1 : req.userId ≠ 0) (h2 : req.email ≠ "") (h3 : req.items ≠ [])
    (hsi : req.shippingInfo = some si)
    (huser : s.users.find? (fun x => x.id == req.userId) = some u) :
    ∃ ord d,
      (createOrder s req).2 = .created ord req.pointsUsed d ∧
      pointsOf (createOrder s req).1 req.userId
        = some (u.points - req.pointsUsed.getD 0 + ord.total_amount.floor) := by
  have hval : (req.userId == 0 || req.email == "" || req.items.isEmpty) = false := by
    simp [h1, h2, h3]
  simp only [createOrder, hsi, Option.isNone_some, Bool.or_false, hval,
    Bool.false_eq_true, if_false, huser, pointsOf, Option.bind_some]
  exact ⟨_, _, rfl, pointsOf_map_set s.users req.userId _ u huser⟩

/-- Witness for C8: the spec's example — balance 120, 50 points used, final
total 19.00 → new balance `120 − 50 + 19 = 89` (a change of −31). -/
theorem createOrder_points_balance_witness :
    ((7 : Nat) ≠ 0) ∧
    (∃ ord d,
      (createOrder
        { products := [{ id := 1, title := "P1", price := 10, quantity := 5,
                          brand_segment := "nails", category_slug := "vinyl",
                          best_seller := false }],
          orders := [], order_items := [],
          users := [{ id := 7, points := 120 }], nextOrderId := 31 }
        { userId := 7, email := "b@x.com",
          items := [{ id := some 1, quantity := some 2, price := some 10,
                      brandSegment := none }],
          totalAmount := 20, status := none, trackingCode := none,
          shippingInfo := some { shipping_method := some "local_pickup",
                                  payment_method := none, payment_status := none,
                                  fee := none, pickup := none },
          pointsUsed := some 50, isLocalPickup := true, isLocal := false }).2
        = .created ord (some 50) d ∧
      pointsOf (createOrder
        { products := [{ id := 1, title := "P1", price := 10, quantity := 5,
                          brand_segment := "nails", category_slug := "vinyl",
                          best_seller := false }],
          orders := [], order_items := [],
          users := [{ id := 7, points := 120 }], nextOrderId := 31 }
        { userId := 7, email := "b@x.com",
          items := [{ id := some 1, quantity := some 2, price := some 10,
                      brandSegment := none }],
          totalAmount := 20, status := none, trackingCode := none,
          shippingInfo := some { shipping_method := some "local_pickup",
                                  payment_method := none, payment_status := none,
                                  fee := none, pickup := none },
          pointsUsed := some 50, isLocalPickup := true, isLocal := false }).1 7
        = some (120 - (some 50 : Option Int).getD 0 + ord.total_amount.floor)) :=
  ⟨by decide,
   createOrder_points_balance
     { products := [{ id := 1, title := "P1", price := 10, quantity := 5,
                       brand_segment := "nails", category_slug := "vinyl",
                       best_seller := false }],
       orders := [], order_items := [],
       users := [{ id := 7, points := 120 }], nextOrderId := 31 }
     { userId := 7, email := "b@x.com",
       items := [{ id := some 1, quantity := some 2, price := some 10,
                   brandSegment := none }],
       totalAmount := 20, status := none, trackingCode := none,
       shippingInfo := some { shipping_method := some "local_pickup",
                               payment_method := none, payment_status := none,
                               fee := none, pickup := none },
       pointsUsed := some 50, isLocalPickup := true, isLocal := false }
     { shipping_method := some "local_pickup", payment_method := none,
       payment_status := none, fee := none, pickup := none }
     { id := 7, points := 120 }
     (by decide) (by decide) (by decide) rfl (by decide)⟩

/-- Store for the C10 scenario: the buyer holds only 10 points. -/
def lowPointsStore : Store :=
  { products := [{ id := 1, title := "P1", price := 4, quantity := 10,
                    brand_segment := "nails", category_slug := "vinyl",
                    best_seller := false }],
    orders := [], order_items := [],
    users := [{ id := 1, points := 10 }], nextOrderId := 100 }

/-- Request for the C10 scenario: 75 points redeemed (not a 50/100 tier)
against a 4.00 order. -/
def overRedeemReq : CreateOrderReq :=
  { userId := 1, email := "a@b.c",
    items := [{ id := some 1, quantity := some 1, price := some 4,
                brandSegment := none }],
    totalAmount := 4, status := none, trackingCode := none,
    shippingInfo := some { shipping_method := some "local_pickup",
                            payment_method := none, payment_status := none,
                            fee := none, pickup := none },
    pointsUsed := some 75, isLocalPickup := true, isLocal := false }

/-- **C10.** `createOrder` never checks that the balance covers `pointsUsed`
and grants no discount for a non-tier value: redeeming 75 points against a
balance of 10 on a 4.00 order succeeds with discount 0 and drives the balance
to `10 − 75 + 4 = −61 < 0`. -/
theorem createOrder_allows_negative_points :
    (∃ ord, (createOrder lowPointsStore overRedeemReq).2
        = .created ord (some 75) 0 ∧ ord.total_amount = 4) ∧
    pointsOf (createOrder lowPointsStore overRedeemReq).1 1 = some (-61) ∧
    ((-61 : Int) < 0) := by
  have hb100 : ((some 75 : Option Int) == some 100) = false := by decide
  have hb50 : ((some 75 : Option Int) == some 50) = false := by decide
  refine ⟨⟨_, rfl, ?_⟩, ?_, by decide⟩
  · simp only [hb100, hb50, Bool.false_eq_true, if_false, Bool.true_or, if_true]
    norm_num [overRedeemReq]
  · simp only [pointsOf, createOrder, lowPointsStore, overRedeemReq, hb100, hb50,
      Bool.false_eq_true, if_false, Bool.true_or, if_true, List.find?]
    norm_num
    decide

/-! ## createPickupOrder (orderController.js, local-pickup holds) -/

/-- The `.contains(shipping_info, { shipping_method: "local_pickup" })`
query filter: the metadata bag marks the order as a local-pickup hold. -/
def isLocalPickupOrder (o : Order) : Bool :=
  match o.shipping_info with
  | some si => si.shipping_method == some "local_pickup"
  | none => false

/-- The in-loop status filter of the reservation cap:
`st === 'awaiting_pickup' || st === 'pending'` on the lowercased status. -/
def isOpenStatus (o : Order) : Bool :=
  lowerStr o.status == "awaiting_pickup" || lowerStr o.status == "pending"

/-- The reservation-cap count of `createPickupOrder`: the caller's orders
whose metadata marks `local_pickup`, restricted to lowercased status
`awaiting_pickup` or `pending`. -/
def openHoldCount (s : Store) (uid : Nat) : Nat :=
  ((s.orders.filter (fun o => o.user_id == uid && isLocalPickupOrder o)).filter
      isOpenStatus).length

/-- The `pickup.reservation_expires_at` timestamp of an order's metadata. -/
def holdExpiry (o : Order) : Option Nat :=
  o.shipping_info.bind (fun si => si.pickup.bind (fun pk => pk.reservation_expires_at))

/-- The lowercased `payment_status` check
`(o?.shipping_info?.payment_status || '').toLowerCase() === 'paid'`. -/
def holdPaid (o : Order) : Bool :=
  lowerStr ((o.shipping_info.bind (fun si => si.payment_status)).getD "") == "paid"

/-- Modelled from the spec (§3 Reservation): a hold is "expired" once the
current time passes `reservation_expires_at` and payment has not been marked
paid.  Used only to state the spec's notion of an *open (unexpired)* hold for
C5; the code's own cap count is `openHoldCount`. -/
def specHoldExpired (now : Nat) (o : Order) : Bool :=
  match holdExpiry o with
  | none => false
  | some t => decide (t < now) && !(holdPaid o)

/-- Modelled from the spec (§3 Reservation): an open pickup hold of `uid` —
marked `local_pickup`, status `awaiting_pickup` or `pending`, and unexpired. -/
def specOpenHold (now : Nat) (uid : Nat) (o : Order) : Bool :=
  o.user_id == uid && isLocalPickupOrder o && isOpenStatus o
    && !(specHoldExpired now o)

/-- The customer payload accompanying a pickup request. -/
structure PickupCustomer where
  email : Option String
  name : Option String
  deriving Repr, DecidableEq

/-- The request of `createPickupOrder` (authenticated caller plus body).
`userId = 0` models a falsy (absent) authenticated id. -/
structure PickupReq where
  userId : Nat
  userEmail : Option String
  items : List ReqItem
  customer : Option PickupCustomer
  notes : Option String
  deriving Repr, DecidableEq

/-- Result of `createPickupOrder`: 401, the 400 validation failures, the 429
reservation cap, the 409 insufficient-stock conflict naming the offending
product and its available quantity, or 201 with the order id and expiry. -/
inductive PickupResult where
  | unauthorized
  | badRequest (msg : String)
  | tooManyHolds
  | insufficientStock (productId : Nat) (title : String) (available : Int)
  | created (orderId : Nat) (reservationExpiresAt : Nat)
  deriving Repr, DecidableEq

/-- The per-item validation loop of `createPickupOrder`: positive quantity,
resolvable product, `available < qty → 409`; accumulates the subtotal from
authoritative prices. -/
def validateItems (products : List Product) :
    List ReqItem → Rat → Except PickupResult Rat
  | [], subtotal => .ok subtotal
  | it :: rest, subtotal =>
      let qty := reqQty it.quantity
      if qty ≤ 0 then .error (.badRequest "Invalid quantity")
      else
        match it.id with
        | none => .error (.badRequest "Product not found")
        | some pid =>
            match products.find? (fun p => p.id == pid) with
            | none => .error (.badRequest "Product not found")
            | some prod =>
                let available := prod.quantity
                if available < qty then
                  .error (.insufficientStock pid prod.title available)
                else validateItems products rest (subtotal + prod.price * (qty : Rat))

/-- `createPickupOrder` (orderController.js): require auth and a non-empty
item list; enforce the ≤ 2 open-reservation cap (429); resolve authoritative
products (400 when an id is missing or unknown); validate quantities and
stock (409); then persist the `awaiting_pickup` order with a 48-hour
`reservation_expires_at`, snapshot the items, and eagerly decrement
inventory (per-item failures non-fatal).  E-mails are not modelled. -/
def createPickupOrder (s : Store) (now : Nat) (req : PickupReq) :
    Store × PickupResult :=
  if req.userId == 0 then (s, .unauthorized)
  else if req.items.isEmpty then (s, .badRequest "items required")
  else if 2 ≤ openHoldCount s req.userId then (s, .tooManyHolds)
  else
    let productIds := req.items.filterMap (fun it => it.id)
    if productIds.length != req.items.length then
      (s, .badRequest "Each item must include an id")
    else if (s.products.filter (fun p => productIds.contains p.id)).length
        != productIds.length then
      (s, .badRequest "One or more products not found")
    else
      match validateItems s.products req.items 0 with
      | .error e => (s, e)
      | .ok subtotal =>
          let expiresAt := now + 48 * 60 * 60 * 1000
          let shippingInfo : ShippingInfo := {
            shipping_method := some "local_pickup",
            payment_method := some "pay_on_pickup",
            payment_status := some "unpaid",
            fee := none,
            pickup := some { reservation_expires_at := some expiresAt,
                             expired_at := none } }
          let newOrder : Order := {
            id := s.nextOrderId,
            user_id := req.userId,
            email := jsOrStr (req.customer.bind (fun c => c.email))
                       (jsOrStr req.userEmail ""),
            total_amount := max 0 subtotal,
            status := "awaiting_pickup",
            tracking_code := "Pickup",
            shipping_info := some shippingInfo,
            points_used := 0 }
          let itemsPayload := req.items.map (fun it =>
            let pid := it.id.getD 0
            let prodq := s.products.find? (fun p => p.id == pid)
            ({ order_id := s.nextOrderId,
               product_id := pid,
               quantity := reqQty it.quantity,
               price := (prodq.map (fun p => p.price)).getD 0,
               product_brand_segment :=
                 match prodq with
                 | some p => if lowerStr p.brand_segment == "" then none
                             else some (lowerStr p.brand_segment)
                 | none => none } : OrderItem))
          let products := decrementAllItems s.products req.items
          ({ products := products,
             orders := s.orders ++ [newOrder],
             order_items := s.order_items ++ itemsPayload,
             users := s.users,
             nextOrderId := s.nextOrderId + 1 },
           .created s.nextOrderId expiresAt)

theorem length_filter_mono {α : Type} (p q : α → Bool) (l : List α)
    (h : ∀ a ∈ l, p a = true → q a = true) :
    (l.filter p).length ≤ (l.filter q).length := by
  induction l with
  | nil => simp
  | cons a rest ih =>
      have hrest := ih (fun x hx => h x (by simp [hx]))
      by_cases hp : p a = true
      · have hq := h a (by simp) hp
        simp [hp, hq]
        omega
      · have hp' : p a = false := by
          cases hpa : p a
          · rfl
          · exact absurd hpa hp
        by_cases hq : q a = true <;>
          simp [hp', hq, List.filter_cons] <;> omega

theorem specOpenHold_le_openHoldCount (s : Store) (now uid : Nat) :
    (s.orders.filter (specOpenHold now uid)).length ≤ openHoldCount s uid := by
  unfold openHoldCount
  rw [List.filter_filter]
  apply length_filter_mono
  intro o _ hsp
  unfold specOpenHold at hsp
  simp only [Bool.and_eq_true] at hsp
  simp [hsp.1.1.1, hsp.1.1.2, hsp.1.2]

/-- **C5.** The reservation cap: when the caller already holds at least two
open (unexpired) pickup reservations in the spec's sense, `createPickupOrder`
rejects with the 429 rate-limit result and the store — orders, order items
and inventory — is unchanged. -/
theorem createPickupOrder_hold_cap (s : Store) (now : Nat) (req : PickupReq)
    (h0 : req.userId ≠ 0) (h1 : req.items ≠ [])
    (hcount : 2 ≤ (s.orders.filter (specOpenHold now req.userId)).length) :
    (createPickupOrder s now req).2 = .tooManyHolds ∧
    (createPickupOrder s now req).1 = s := by
  have hcap : 2 ≤ openHoldCount s req.userId :=
    le_trans hcount (specOpenHold_le_openHoldCount s now req.userId)
  have h0' : (req.userId == 0) = false := by simp [h0]
  have h1' : req.items.isEmpty = false := by
    cases hi : req.items
    · exact absurd hi h1
    · rfl
  constructor <;>
    simp [createPickupOrder, h0', h1', hcap]

/-- An open, unexpired pickup hold of user 9 (expires at 5000). -/
def openHold (oid : Nat) : Order :=
  { id := oid, user_id := 9, email := "u@x.com", total_amount := 5,
    status := "awaiting_pickup", tracking_code := "Pickup",
    shipping_info := some
      { shipping_method := some "local_pickup",
        payment_method := some "pay_on_pickup",
        payment_status := some "unpaid",
        fee := none,
        pickup := some { reservation_expires_at := some 5000, expired_at := none } },
    points_used := 0 }

/-- Store for the C5 witness: user 9 already holds two open reservations. -/
def twoHoldsStore : Store :=
  { products := [{ id := 1, title := "P1", price := 10, quantity := 5,
                    brand_segment := "nails", category_slug := "vinyl",
                    best_seller := false }],
    orders := [openHold 21, openHold 22],
    order_items := [], users := [{ id := 9, points := 0 }], nextOrderId := 23 }

/-- The third reservation attempt of user 9 for the C5 witness. -/
def thirdHoldReq : PickupReq :=
  { userId := 9, userEmail := some "u@x.com",
    items := [{ id := some 1, quantity := some 1, price := none,
                brandSegment := none }],
    customer := none, notes := none }

/-- Witness for C5: a user with two open, unexpired `awaiting_pickup` holds;
a third attempt at time 100 is rejected with 429 and the store is
unchanged. -/
theorem createPickupOrder_hold_cap_witness :
    ((9 : Nat) ≠ 0) ∧
    (thirdHoldReq.items ≠ []) ∧
    (2 ≤ (twoHoldsStore.orders.filter (specOpenHold 100 9)).length) ∧
    ((createPickupOrder twoHoldsStore 100 thirdHoldReq).2 = .tooManyHolds ∧
      (createPickupOrder twoHoldsStore 100 thirdHoldReq).1 = twoHoldsStore) :=
  ⟨by decide, by decide, by decide,
   createPickupOrder_hold_cap twoHoldsStore 100 thirdHoldReq
     (by decide) (by decide) (by decide)⟩

theorem filterMap_id_length (items : List ReqItem)
    (h : ∀ it ∈ items, (it.id).isSome) :
    (items.filterMap (fun it => it.id)).length = items.length := by
  induction items with
  | nil => rfl
  | cons it rest ih =>
      obtain ⟨pid, hp⟩ := Option.isSome_iff_exists.mp (h it (by simp))
      simp [List.filterMap_cons, hp, ih (fun x hx => h x (by simp [hx]))]

theorem validateItems_stock_conflict (ps : List Product) (items : List ReqItem)
    (hqty : ∀ it ∈ items, 0 < reqQty it.quantity)
    (hid : ∀ it ∈ items, (it.id).isSome)
    (hres : ∀ it ∈ items, ∀ pid, it.id = some pid →
        (ps.find? (fun p => p.id == pid)).isSome)
    (hover : ∃ it ∈ items, ∃ pid prod, it.id = some pid ∧
        ps.find? (fun p => p.id == pid) = some prod ∧
        prod.quantity < reqQty it.quantity) :
    ∀ subtotal, ∃ pid prod,
      ps.find? (fun p => p.id == pid) = some prod ∧
      (∃ it ∈ items, it.id = some pid ∧ prod.quantity < reqQty it.quantity) ∧
      validateItems ps items subtotal
        = .error (.insufficientStock pid prod.title prod.quantity) := by
  induction items with
  | nil =>
      obtain ⟨it, hmem, _⟩ := hover
      exact absurd hmem (by simp)
  | cons it rest ih =>
      intro subtotal
      have hq : 0 < reqQty it.quantity := hqty it (by simp)
      have hqle : ¬ (reqQty it.quantity ≤ 0) := not_le.mpr hq
      obtain ⟨pid, hidp⟩ := Option.isSome_iff_exists.mp (hid it (by simp))
      obtain ⟨prod, hprod⟩ :=
        Option.isSome_iff_exists.mp (hres it (by simp) pid hidp)
      by_cases hlt : prod.quantity < reqQty it.quantity
      · refine ⟨pid, prod, hprod, ⟨it, by simp, hidp, hlt⟩, ?_⟩
        simp [validateItems, hqle, hidp, hprod, hlt]
      · have hover' : ∃ x ∈ rest, ∃ pid one, x.id = some pid ∧
            ps.find? (fun p => p.id == pid) = some one ∧
            one.quantity < reqQty x.quantity := by
          obtain ⟨x, hx, pd, pr, hxid, hxfind, hxlt⟩ := hover
          rcases List.mem_cons.mp hx with rfl | hxr
          · rw [hidp] at hxid
            injection hxid with hpd
            subst hpd
            rw [hprod] at hxfind
            injection hxfind with hpr
            subst hpr
            exact absurd hxlt hlt
          · exact ⟨x, hxr, pd, pr, hxid, hxfind, hxlt⟩
        obtain ⟨pd, pr, hfind, hwit, heq⟩ :=
          ih (fun x hx => hqty x (by simp [hx])) (fun x hx => hid x (by simp [hx]))
            (fun x hx pd hp => hres x (by simp [hx]) pd hp) hover'
            (subtotal + prod.price * ((reqQty it.quantity : Int) : Rat))
        refine ⟨pd, pr, hfind, ?_, ?_⟩
        · obtain ⟨x, hx, hx1, hx2⟩ := hwit
          exact ⟨x, by simp [hx], hx1, hx2⟩
        · simp [validateItems, hqle, hidp, hprod, hlt, heq]

/-- **C6.** Insufficient stock on a pickup hold: when the request reaches the
stock check (caller authenticated, under the hold cap, all item ids resolve,
quantities valid) and some item asks for more than the product's available
quantity, `createPickupOrder` answers the 409 conflict naming an offending
product and its available quantity, and the store — no order row, no
order-item row, no inventory change — is unchanged. -/
theorem createPickupOrder_insufficient_stock (s : Store) (now : Nat)
    (req : PickupReq)
    (h0 : req.userId ≠ 0) (h1 : req.items ≠ [])
    (hcap : openHoldCount s req.userId < 2)
    (hid : ∀ it ∈ req.items, (it.id).isSome)
    (hflen : (s.products.filter
        (fun p => (req.items.filterMap (fun it => it.id)).contains p.id)).length
        = (req.items.filterMap (fun it => it.id)).length)
    (hqty : ∀ it ∈ req.items, 0 < reqQty it.quantity)
    (hres : ∀ it ∈ req.items, ∀ pid, it.id = some pid →
        (s.products.find? (fun p => p.id == pid)).isSome)
    (hover : ∃ it ∈ req.items, ∃ pid prod, it.id = some pid ∧
        s.products.find? (fun p => p.id == pid) = some prod ∧
        prod.quantity < reqQty it.quantity) :
    ∃ pid prod,
      s.products.find? (fun p => p.id == pid) = some prod ∧
      (∃ it ∈ req.items, it.id = some pid ∧ prod.quantity < reqQty it.quantity) ∧
      (createPickupOrder s now req).2
          = .insufficientStock pid prod.title prod.quantity ∧
      (createPickupOrder s now req).1 = s := by
  have h0' : (req.userId == 0) = false := by simp [h0]
  have h1' : req.items.isEmpty = false := by
    cases hi : req.items
    · exact absurd hi h1
    · rfl
  have hcap' : ¬ (2 ≤ openHoldCount s req.userId) := not_le.mpr hcap
  have hlen : (req.items.filterMap (fun it => it.id)).length = req.items.length :=
    filterMap_id_length req.items hid
  obtain ⟨pid, prod, hfind, hwit, heq⟩ :=
    validateItems_stock_conflict s.products req.items hqty hid hres hover 0
  refine ⟨pid, prod, hfind, hwit, ?_, ?_⟩ <;>
  · simp only [createPickupOrder, h0', h1', Bool.false_eq_true, if_false]
    rw [if_neg hcap']
    simp only [hflen, hlen, bne_self_eq_false, Bool.false_eq_true, if_false, heq]

/-- Store for the C6 witness: the only product has one unit in stock. -/
def lowStockStore : Store :=
  { products := [{ id := 1, title := "P1", price := 10, quantity := 1,
                    brand_segment := "nails", category_slug := "vinyl",
                    best_seller := false }],
    orders := [], order_items := [], users := [{ id := 9, points := 0 }],
    nextOrderId := 50 }

/-- Request for the C6 witness: user 9 asks for two units of product 1. -/
def overAskReq : PickupReq :=
  { userId := 9, userEmail := some "u@x.com",
    items := [{ id := some 1, quantity := some 2, price := none,
                brandSegment := none }],
    customer := none, notes := none }

/-- Witness for C6: available 1, requested 2 → 409 naming product 1 with
available 1; the store is unchanged. -/
theorem createPickupOrder_insufficient_stock_witness :
    ((9 : Nat) ≠ 0) ∧
    (overAskReq.items ≠ []) ∧
    (openHoldCount lowStockStore 9 < 2) ∧
    (∃ pid prod,
      lowStockStore.products.find? (fun p => p.id == pid) = some prod ∧
      (∃ it ∈ overAskReq.items, it.id = some pid ∧
        prod.quantity < reqQty it.quantity) ∧
      (createPickupOrder lowStockStore 0 overAskReq).2
          = .insufficientStock pid prod.title prod.quantity ∧
      (createPickupOrder lowStockStore 0 overAskReq).1 = lowStockStore) :=
  ⟨by decide, by decide, by decide,
   createPickupOrder_insufficient_stock lowStockStore 0 overAskReq
     (by decide) (by decide) (by decide) (by decide) (by decide) (by decide)
     (by
       intro it hit pid hp
       simp only [overAskReq, List.mem_singleton] at hit
       subst hit
       have hp' : pid = 1 := by
         have : (some 1 : Option Nat) = some pid := hp
         injection this with h
         exact h.symm
       subst hp'
       decide)
     ⟨{ id := some 1, quantity := some 2, price := none, brandSegment := none },
      by decide, 1,
      { id := 1, title := "P1", price := 10, quantity := 1,
        brand_segment := "nails", category_slug := "vinyl", best_seller := false },
      rfl, by decide, by decide⟩⟩

/-! ## cancelExpiredPickupHolds (orderController.js, expiry reconciliation) -/

/-- The candidate query of `cancelExpiredPickupHolds`: orders whose metadata
marks `local_pickup` and whose status is exactly "awaiting_pickup". -/
def candidateHold (o : Order) : Bool :=
  isLocalPickupOrder o && o.status == "awaiting_pickup"

/-- The in-loop expiry test (`if (!exp || exp > nowIso) continue;`): the hold
is processed only when an expiry timestamp is present and not in the
future. -/
def holdExpired (now : Nat) (o : Order) : Bool :=
  match holdExpiry o with
  | none => false
  | some t => decide (t ≤ now)

/-- The in-loop processing condition: expired and not marked paid. -/
def loopEligible (now : Nat) (o : Order) : Bool :=
  holdExpired now o && !(holdPaid o)

/-- An order the reconciliation pass cancels: a candidate hold that is
expired and unpaid. -/
def expirable (now : Nat) (o : Order) : Bool :=
  candidateHold o && loopEligible now o

/-- `const info = { ...(o.shipping_info || {}) };
info.pickup = { ...(info.pickup || {}), expired_at: nowIso };` -/
def stampInfo (now : Nat) (info : Option ShippingInfo) : ShippingInfo :=
  let si := info.getD
    { shipping_method := none, payment_method := none, payment_status := none,
      fee := none, pickup := none }
  let pk := si.pickup.getD { reservation_expires_at := none, expired_at := none }
  { si with pickup := some { pk with expired_at := some now } }

/-- The row update applied to a processed hold: status "canceled" plus the
expiry-stamped metadata. -/
def expireStamp (now : Nat) (o : Order) : Order :=
  { o with status := "canceled", shipping_info := some (stampInfo now o.shipping_info) }

/-- The reconciliation loop of `cancelExpiredPickupHolds` over the fetched
candidate snapshot: per eligible hold, restock its items (counting successful
increments), cancel the order row and stamp `pickup.expired_at`; returns
(store, processed, restocked). -/
def processHolds (now : Nat) : Store → List Order → Store × Nat × Nat
  | st, [] => (st, 0, 0)
  | st, o :: rest =>
      if !(holdExpired now o) then processHolds now st rest
      else if holdPaid o then processHolds now st rest
      else
        let items := st.order_items.filter (fun it => it.order_id == o.id)
        let r := restockItems st.products items
        let orders := st.orders.map (fun x =>
          if x.id == o.id then
            { x with status := "canceled", shipping_info := some (stampInfo now o.shipping_info) }
          else x)
        let st' : Store := { st with products := r.1, orders := orders }
        let tail := processHolds now st' rest
        (tail.1, 1 + tail.2.1, r.2.1 + tail.2.2)

/-- `cancelExpiredPickupHolds` (orderController.js): fetch the awaiting_pickup
local-pickup candidates and run the reconciliation loop over that snapshot. -/
def cancelExpiredPickupHolds (now : Nat) (s : Store) : Store × Nat × Nat :=
  processHolds now s (s.orders.filter candidateHold)

theorem processHolds_cons_skip (now : Nat) (st : Store) (o : Order)
    (rest : List Order) (h : loopEligible now o = false) :
    processHolds now st (o :: rest) = processHolds now st rest := by
  unfold loopEligible at h
  by_cases h1 : holdExpired now o
  · have h2 : holdPaid o = true := by
      cases hp : holdPaid o
      · rw [h1, hp] at h
        simp at h
      · rfl
    simp [processHolds, h1, h2]
  · have h1' : holdExpired now o = false := by
      cases hh : holdExpired now o
      · rfl
      · exact absurd hh h1
    simp [processHolds, h1']

theorem processHolds_cons_run (now : Nat) (st : Store) (o : Order)
    (rest : List Order) (h : loopEligible now o = true) :
    processHolds now st (o :: rest)
      = (let tail := processHolds now
            { st with
              products := (restockItems st.products
                (st.order_items.filter (fun it => it.order_id == o.id))).1,
              orders := st.orders.map (fun x =>
                if x.id == o.id then
                  { x with status := "canceled", shipping_info := some (stampInfo now o.shipping_info) }
                else x) } rest
         (tail.1, 1 + tail.2.1,
          (restockItems st.products
            (st.order_items.filter (fun it => it.order_id == o.id))).2.1
            + tail.2.2)) := by
  unfold loopEligible at h
  simp only [Bool.and_eq_true, Bool.not_eq_true'] at h
  simp [processHolds, h.1, h.2]

theorem processHolds_frame (now : Nat) (todo : List Order) (st : Store) :
    (processHolds now st todo).1.order_items = st.order_items ∧
    (processHolds now st todo).1.users = st.users ∧
    (processHolds now st todo).1.nextOrderId = st.nextOrderId := by
  induction todo generalizing st with
  | nil => exact ⟨rfl, rfl, rfl⟩
  | cons o rest ih =>
      by_cases he : loopEligible now o
      · rw [processHolds_cons_run now st o rest he]
        exact ih _
      · have he' : loopEligible now o = false := by
          cases hh : loopEligible now o
          · rfl
          · exact absurd hh he
        rw [processHolds_cons_skip now st o rest he']
        exact ih st

theorem processHolds_all_skip (now : Nat) (todo : List Order) (st : Store)
    (h : ∀ o ∈ todo, loopEligible now o = false) :
    processHolds now st todo = (st, 0, 0) := by
  induction todo with
  | nil => rfl
  | cons o rest ih =>
      rw [processHolds_cons_skip now st o rest (h o (by simp))]
      exact ih (fun x hx => h x (by simp [hx]))

/-- Restock contribution of one reconciliation pass over the snapshot `todo`
to the product `pid`, gated by the in-loop eligibility test. -/
def gatedRestockSum (now : Nat) (todo : List Order) (allItems : List OrderItem)
    (pid : Nat) : Int :=
  match todo with
  | [] => 0
  | o :: rest =>
      (if loopEligible now o then
        restockSum (allItems.filter (fun it => it.order_id == o.id)) pid
       else 0) + gatedRestockSum now rest allItems pid

/-- Restock contribution of one reconciliation pass over the full orders
table to the product `pid`: one restock per expirable order. -/
def expiredRestockSum (now : Nat) (orders : List Order)
    (allItems : List OrderItem) (pid : Nat) : Int :=
  match orders with
  | [] => 0
  | o :: rest =>
      (if expirable now o then
        restockSum (allItems.filter (fun it => it.order_id == o.id)) pid
       else 0) + expiredRestockSum now rest allItems pid

theorem gated_filter_eq_expired (now : Nat) (orders : List Order)
    (allItems : List OrderItem) (pid : Nat) :
    gatedRestockSum now (orders.filter candidateHold) allItems pid
      = expiredRestockSum now orders allItems pid := by
  induction orders with
  | nil => rfl
  | cons o rest ih =>
      by_cases hc : candidateHold o
      · simp [List.filter_cons, hc, gatedRestockSum, expiredRestockSum,
          expirable, ih]
      · have hc' : candidateHold o = false := by
          cases hh : candidateHold o
          · rfl
          · exact absurd hh hc
        simp [List.filter_cons, hc', expiredRestockSum, expirable, ih]

theorem processHolds_qty (now : Nat) (todo : List Order) (st : Store)
    (pid : Nat) :
    qtyOf (processHolds now st todo).1.products pid
      = (qtyOf st.products pid).map
          (fun x => x + gatedRestockSum now todo st.order_items pid) := by
  induction todo generalizing st with
  | nil =>
      cases h : qtyOf st.products pid <;>
        simp [processHolds, gatedRestockSum, h]
  | cons o rest ih =>
      by_cases he : loopEligible now o
      · rw [processHolds_cons_run now st o rest he]
        have hih := ih { st with
          products := (restockItems st.products
            (st.order_items.filter (fun it => it.order_id == o.id))).1,
          orders := st.orders.map (fun x =>
            if x.id == o.id then
              { x with status := "canceled", shipping_info := some (stampInfo now o.shipping_info) }
            else x) }
        simp only at hih
        rw [hih, qtyOf_restockItems]
        cases h : qtyOf st.products pid <;>
          simp [h, gatedRestockSum, he, Int.add_assoc]
      · have he' : loopEligible now o = false := by
          cases hh : loopEligible now o
          · rfl
          · exact absurd hh he
        rw [processHolds_cons_skip now st o rest he', ih st]
        cases h : qtyOf st.products pid <;>
          simp [h, gatedRestockSum, he']

theorem processHolds_orders (now : Nat) (todo : List Order) (st : Store)
    (hnd : (todo.map (fun o => o.id)).Nodup)
    (hsub : ∀ o ∈ todo, ∀ x ∈ st.orders, x.id = o.id → x = o) :
    (processHolds now st todo).1.orders
      = st.orders.map (fun x =>
          if todo.any (fun o => o.id == x.id && loopEligible now o)
          then expireStamp now x else x) := by
  induction todo generalizing st with
  | nil => simp [processHolds]
  | cons o rest ih =>
      rw [List.map_cons] at hnd
      have honotin : o.id ∉ rest.map (fun x => x.id) := (List.nodup_cons.mp hnd).1
      have hndr : (rest.map (fun x => x.id)).Nodup := (List.nodup_cons.mp hnd).2
      by_cases he : loopEligible now o
      · rw [processHolds_cons_run now st o rest he]
        have hfid : ∀ z : Order, (if (z.id == o.id) = true then
            { z with status := "canceled", shipping_info := some (stampInfo now o.shipping_info) }
            else z).id = z.id := by
          intro z
          by_cases hcase : (z.id == o.id) = true <;> simp [hcase]
        have hsub' : ∀ o' ∈ rest,
            ∀ x ∈ st.orders.map (fun x =>
              if x.id == o.id then
                { x with status := "canceled", shipping_info := some (stampInfo now o.shipping_info) }
              else x), x.id = o'.id → x = o' := by
          intro o' ho' x hx hxid
          obtain ⟨y, hy, hfy⟩ := List.mem_map.mp hx
          have hyid : y.id = x.id := by
            rw [← hfy]
            exact (hfid y).symm
          have hyneq : ¬ (y.id = o.id) := by
            intro hyo
            apply honotin
            rw [← hyo, hyid, hxid]
            exact List.mem_map.mpr ⟨o', ho', rfl⟩
          have hbeqf : (y.id == o.id) = false := by simp [hyneq]
          rw [hbeqf] at hfy
          simp only [Bool.false_eq_true, if_false] at hfy
          rw [← hfy] at hxid ⊢
          exact hsub o' (by simp [ho']) y hy hxid
        have hih := ih { st with
          products := (restockItems st.products
            (st.order_items.filter (fun it => it.order_id == o.id))).1,
          orders := st.orders.map (fun x =>
            if x.id == o.id then
              { x with status := "canceled", shipping_info := some (stampInfo now o.shipping_info) }
            else x) } hndr hsub'
        simp only at hih ⊢
        rw [hih, List.map_map]
        apply List.map_congr_left
        intro x hx
        by_cases hxid : x.id = o.id
        · have hxo : x = o := hsub o (by simp) x hx hxid
          have hbeq : (x.id == o.id) = true := by simp [hxid]
          have hhead : (o.id == x.id && loopEligible now o) = true := by
            simp [hxid, he]
          have hstamp : (if (x.id == o.id) = true then
              { x with status := "canceled", shipping_info := some (stampInfo now o.shipping_info) }
              else x) = expireStamp now x := by
            rw [hbeq]
            simp only [if_true]
            rw [expireStamp, hxo]
          have hrest : rest.any (fun o' =>
              o'.id == (expireStamp now x).id && loopEligible now o') = false := by
            apply List.any_eq_false.mpr
            intro o' ho'
            have hne : ¬ (o'.id = x.id) := by
              intro hoid
              apply honotin
              rw [← hxid, ← hoid]
              exact List.mem_map.mpr ⟨o', ho', rfl⟩
            have : (expireStamp now x).id = x.id := rfl
            simp [this, hne]
          simp only [Function.comp, hstamp, List.any_cons, hhead,
            Bool.true_or, if_true, hrest, Bool.false_eq_true, if_false]
        · have hbeq : (x.id == o.id) = false := by simp [hxid]
          have hhead : (o.id == x.id && loopEligible now o) = false := by
            have : ¬ (o.id = x.id) := fun h => hxid h.symm
            simp [this]
          simp only [Function.comp, hbeq, Bool.false_eq_true, if_false,
            List.any_cons, hhead, Bool.false_or]
      · have he' : loopEligible now o = false := by
          cases hh : loopEligible now o
          · rfl
          · exact absurd hh he
        rw [processHolds_cons_skip now st o rest he']
        rw [ih st hndr (fun o' ho' => hsub o' (by simp [ho']))]
        apply List.map_congr_left
        intro x hx
        have hhead : (o.id == x.id && loopEligible now o) = false := by
          simp [he']
        simp [List.any_cons, hhead]

theorem cancelExpired_orders_spec (now : Nat) (s : Store)
    (hnd : (s.orders.map (fun o => o.id)).Nodup) :
    (cancelExpiredPickupHolds now s).1.orders
      = s.orders.map (fun o => if expirable now o then expireStamp now o else o) := by
  have hndf : ((s.orders.filter candidateHold).map (fun o => o.id)).Nodup :=
    List.Nodup.sublist (List.Sublist.map _ (List.filter_sublist _)) hnd
  have hinj : ∀ x ∈ s.orders, ∀ y ∈ s.orders, x.id = y.id → x = y := by
    intro x hx y hy hxy
    exact List.inj_on_of_nodup_map hnd hx hy hxy
  have hsub : ∀ o ∈ s.orders.filter candidateHold,
      ∀ x ∈ s.orders, x.id = o.id → x = o := by
    intro o ho x hx hid
    exact hinj x hx o (List.mem_filter.mp ho).1 hid
  rw [cancelExpiredPickupHolds, processHolds_orders now _ s hndf hsub]
  apply List.map_congr_left
  intro x hx
  by_cases hex : expirable now x
  · have hany : (s.orders.filter candidateHold).any
        (fun o => o.id == x.id && loopEligible now o) = true := by
      apply List.any_eq_true.mpr
      have hx2 : candidateHold x = true ∧ loopEligible now x = true := by
        have := hex
        rw [expirable, Bool.and_eq_true] at this
        exact this
      exact ⟨x, List.mem_filter.mpr ⟨hx, hx2.1⟩, by simp [hx2.2]⟩
    simp [hany, hex]
  · have hany : (s.orders.filter candidateHold).any
        (fun o => o.id == x.id && loopEligible now o) = false := by
      apply List.any_eq_false.mpr
      intro o ho
      obtain ⟨homem, hcand⟩ := List.mem_filter.mp ho
      by_cases hoid : o.id = x.id
      · have hox : o = x := hinj o homem x hx hoid
        cases hle : loopEligible now o
        · simp [hle]
        · exfalso
          apply hex
          rw [expirable, Bool.and_eq_true]
          rw [hox] at hcand hle
          exact ⟨hcand, hle⟩
      · simp [hoid]
    have hex' : expirable now x = false := by
      cases hh : expirable now x
      · rfl
      · exact absurd hh hex
    simp [hany, hex']

/-- **C3 (amended).** One reconciliation pass cancels exactly the
awaiting_pickup local-pickup orders whose `reservation_expires_at` is present
and at or before `now` and whose (lowercased) payment status is not "paid":
each such order is set to "canceled" with `pickup.expired_at` stamped, every
other order is untouched, the order-items table is unchanged, and every
product's quantity grows by exactly the expirable orders' restock amounts. -/
theorem cancelExpired_cancels_exactly_due_unpaid (s : Store) (now : Nat)
    (hnd : (s.orders.map (fun o => o.id)).Nodup) :
    (cancelExpiredPickupHolds now s).1.orders
        = s.orders.map (fun o => if expirable now o then expireStamp now o else o) ∧
    (cancelExpiredPickupHolds now s).1.order_items = s.order_items ∧
    (∀ pid, qtyOf (cancelExpiredPickupHolds now s).1.products pid
        = (qtyOf s.products pid).map
            (fun x => x + expiredRestockSum now s.orders s.order_items pid)) := by
  refine ⟨cancelExpired_orders_spec now s hnd,
    (processHolds_frame now _ s).1, ?_⟩
  intro pid
  rw [cancelExpiredPickupHolds, processHolds_qty, gated_filter_eq_expired]

/-- **C4.** Expiry reconciliation is idempotent: a second pass over the
state produced by a first pass changes nothing and reports zero processed
orders and zero restocked items, because every order canceled by the first
pass fails the `awaiting_pickup` status filter. -/
theorem cancelExpired_idempotent (s : Store) (now : Nat)
    (hnd : (s.orders.map (fun o => o.id)).Nodup) :
    (cancelExpiredPickupHolds now (cancelExpiredPickupHolds now s).1).1
        = (cancelExpiredPickupHolds now s).1 ∧
    (cancelExpiredPickupHolds now (cancelExpiredPickupHolds now s).1).2.1 = 0 ∧
    (cancelExpiredPickupHolds now (cancelExpiredPickupHolds now s).1).2.2 = 0 := by
  have horders := cancelExpired_orders_spec now s hnd
  have hskip : ∀ o ∈ (cancelExpiredPickupHolds now s).1.orders.filter candidateHold,
      loopEligible now o = false := by
    intro o ho
    obtain ⟨homem, hcand⟩ := List.mem_filter.mp ho
    rw [horders] at homem
    obtain ⟨x, hxmem, hfx⟩ := List.mem_map.mp homem
    by_cases hex : expirable now x
    · rw [if_pos hex] at hfx
      have : candidateHold o = false := by
        rw [← hfx]
        simp [candidateHold, expireStamp]
      rw [this] at hcand
      cases hcand
    · rw [if_neg hex] at hfx
      subst hfx
      cases hle : loopEligible now x
      · rfl
      · exfalso
        apply hex
        rw [expirable, Bool.and_eq_true]
        exact ⟨hcand, hle⟩
  have hrun := processHolds_all_skip now
    ((cancelExpiredPickupHolds now s).1.orders.filter candidateHold)
    (cancelExpiredPickupHolds now s).1 hskip
  rw [cancelExpiredPickupHolds, hrun]
  exact ⟨rfl, rfl, rfl⟩

/-- A local-pickup hold of user 3 whose reservation expires exactly at
time 1000 and is unpaid. -/
def boundaryOrder : Order :=
  { id := 31, user_id := 3, email := "c@x.com", total_amount := 8,
    status := "awaiting_pickup", tracking_code := "Pickup",
    shipping_info := some
      { shipping_method := some "local_pickup",
        payment_method := some "pay_on_pickup",
        payment_status := some "unpaid",
        fee := none,
        pickup := some { reservation_expires_at := some 1000, expired_at := none } },
    points_used := 0 }

/-- Store holding `boundaryOrder` with one reserved unit of product 1. -/
def boundaryStore : Store :=
  { products := [{ id := 1, title := "P1", price := 8, quantity := 0,
                    brand_segment := "nails", category_slug := "vinyl",
                    best_seller := false }],
    orders := [boundaryOrder],
    order_items := [{ order_id := 31, product_id := 1, quantity := 1,
                      price := 8, product_brand_segment := some "nails" }],
    users := [{ id := 3, points := 0 }], nextOrderId := 32 }

/-- **C3 counterexample.** The claim cancels only holds whose expiry is
strictly in the past; at `now = 1000` the hold expiring exactly at 1000 is
not strictly past, yet the code cancels it — the skip test is
`exp > nowIso`, so an expiry equal to `now` is processed and the orders
table changes. -/
theorem cancelExpired_boundary_cancels :
    holdExpiry boundaryOrder = some 1000 ∧
    ¬ ((1000 : Nat) < 1000) ∧
    statusOf (cancelExpiredPickupHolds 1000 boundaryStore).1 31 = some "canceled" ∧
    (cancelExpiredPickupHolds 1000 boundaryStore).1.orders ≠ boundaryStore.orders := by
  decide

/-- Witness for C3 (amended) at `boundaryStore`: the due unpaid hold is
canceled with its metadata stamped, the items table is unchanged, and
product 1 is restocked by the recorded amount. -/
theorem cancelExpired_cancels_exactly_due_unpaid_witness :
    ((boundaryStore.orders.map (fun o => o.id)).Nodup) ∧
    ((cancelExpiredPickupHolds 1000 boundaryStore).1.orders
        = boundaryStore.orders.map
            (fun o => if expirable 1000 o then expireStamp 1000 o else o) ∧
      (cancelExpiredPickupHolds 1000 boundaryStore).1.order_items
        = boundaryStore.order_items ∧
      qtyOf (cancelExpiredPickupHolds 1000 boundaryStore).1.products 1
        = (qtyOf boundaryStore.products 1).map
            (fun x => x + expiredRestockSum 1000 boundaryStore.orders
                boundaryStore.order_items 1)) := by
  refine ⟨by decide, ?_, ?_, ?_⟩
  · exact (cancelExpired_cancels_exactly_due_unpaid boundaryStore 1000 (by decide)).1
  · exact (cancelExpired_cancels_exactly_due_unpaid boundaryStore 1000 (by decide)).2.1
  · exact (cancelExpired_cancels_exactly_due_unpaid boundaryStore 1000 (by decide)).2.2 1

/-- An expired (at 2000), unpaid local-pickup hold of user 4. -/
def expiredHold : Order :=
  { id := 41, user_id := 4, email := "d@x.com", total_amount := 6,
    status := "awaiting_pickup", tracking_code := "Pickup",
    shipping_info := some
      { shipping_method := some "local_pickup",
        payment_method := some "pay_on_pickup",
        payment_status := some "unpaid",
        fee := none,
        pickup := some { reservation_expires_at := some 2000, expired_at := none } },
    points_used := 0 }

/-- Store holding `expiredHold` together with its order item. -/
def expiredHoldStore : Store :=
  { products := [{ id := 2, title := "P2", price := 6, quantity := 1,
                    brand_segment := "toys", category_slug := "vinyl",
                    best_seller := false }],
    orders := [expiredHold],
    order_items := [{ order_id := 41, product_id := 2, quantity := 1,
                      price := 6, product_brand_segment := some "toys" }],
    users := [{ id := 4, points := 0 }], nextOrderId := 42 }

/-- Witness for C4: after one reconciliation pass at time 3000 cancels the
expired hold, the second pass changes nothing and reports zero processed and
zero restocked. -/
theorem cancelExpired_idempotent_witness :
    ((expiredHoldStore.orders.map (fun o => o.id)).Nodup) ∧
    ((cancelExpiredPickupHolds 3000
        (cancelExpiredPickupHolds 3000 expiredHoldStore).1).1
        = (cancelExpiredPickupHolds 3000 expiredHoldStore).1 ∧
      (cancelExpiredPickupHolds 3000
        (cancelExpiredPickupHolds 3000 expiredHoldStore).1).2.1 = 0 ∧
      (cancelExpiredPickupHolds 3000
        (cancelExpiredPickupHolds 3000 expiredHoldStore).1).2.2 = 0) :=
  ⟨by decide, cancelExpired_idempotent expiredHoldStore 3000 (by decide)⟩

/-! ## updateProduct (productController.js) -/

/-- `const ALLOWED_BRANDS = new Set(["nails", "toys", "accessories"]);` -/
def ALLOWED_BRANDS : List String := ["nails", "toys", "accessories"]

/-- The request body of the admin product-update endpoint.  Pass-through
columns not read by the order core (image, weight/dimensions, description)
are omitted, like the corresponding `Product` columns. -/
structure UpdateProductReq where
  id : Nat
  title : Option String
  price : Option Rat
  bestSeller : Option Bool
  quantity : Option Int
  brandSegment : Option String
  categorySlug : Option String
  deriving Repr, DecidableEq

/-- Result of `updateProduct`: 403 for non-admins, 400 for brand/category
validation failures and for a missing row during brand fallback, 500 when the
returning select finds no row, 200 with the updated row otherwise. -/
inductive UpdateResult where
  | forbidden
  | badRequest (msg : String)
  | serverError
  | ok (product : Product)
  deriving Repr, DecidableEq

/-- `updateProduct` (productController.js): admin-only; resolves effective
brand segment / category slug (falling back to the existing row when the
request omits them), validates them, then updates only the matching `product`
row and returns it.  No other table is touched. -/
def updateProduct (s : Store) (callerRole : String) (req : UpdateProductReq) :
    Store × UpdateResult :=
  if callerRole != "admin" then (s, .forbidden)
  else
    let effBrand0 := lowerStr (req.brandSegment.getD "").trim
    let effSlug0 := lowerStr (req.categorySlug.getD "").trim
    let resolved : Option (String × String) :=
      if effBrand0 == "" || effSlug0 == "" then
        match s.products.find? (fun p => p.id == req.id) with
        | none => none
        | some existing =>
            some (if effBrand0 == "" then existing.brand_segment else effBrand0,
                  if effSlug0 == "" then existing.category_slug else effSlug0)
      else some (effBrand0, effSlug0)
    match resolved with
    | none => (s, .badRequest "Product not found for update")
    | some eff =>
        if eff.1 == "" then (s, .badRequest "brandSegment required")
        else if eff.2 == "" then (s, .badRequest "categorySlug required")
        else if !(ALLOWED_BRANDS.contains eff.1) then (s, .badRequest "Invalid brandSegment")
        else
          let products := s.products.map (fun p =>
            if p.id == req.id then
              { p with
                title := req.title.getD p.title,
                price := req.price.getD p.price,
                best_seller := req.bestSeller.getD p.best_seller,
                quantity := req.quantity.getD p.quantity,
                brand_segment := eff.1,
                category_slug := eff.2 }
            else p)
          match products.find? (fun p => p.id == req.id) with
          | none => ({ s with products := products }, .serverError)
          | some updated => ({ s with products := products }, .ok updated)

/-- The order total a re-read of the order row would return. -/
def orderTotalOnReread (s : Store) (oid : Nat) : Option Rat :=
  (s.orders.find? (fun o => o.id == oid)).map (fun o => o.total_amount)

/-- The per-item unit-price and brand-segment snapshots a re-read of the
order's items would return. -/
def itemSnapshotsOnReread (s : Store) (oid : Nat) : List (Rat × Option String) :=
  (s.order_items.filter (fun it => it.order_id == oid)).map
    (fun it => (it.price, it.product_brand_segment))

/-- **C9.** Order rows and order-item rows are untouched by product updates:
for every store and every `updateProduct` request (any caller, any fields,
price and segment changes included), the orders and order-items tables are
unchanged, so every order's historical total and per-item price/brand-segment
snapshots read back unchanged. -/
theorem updateProduct_preserves_order_snapshots (s : Store) (callerRole : String)
    (req : UpdateProductReq) :
    (updateProduct s callerRole req).1.orders = s.orders ∧
    (updateProduct s callerRole req).1.order_items = s.order_items ∧
    (∀ oid, orderTotalOnReread (updateProduct s callerRole req).1 oid
        = orderTotalOnReread s oid) ∧
    (∀ oid, itemSnapshotsOnReread (updateProduct s callerRole req).1 oid
        = itemSnapshotsOnReread s oid) := by
  have h : (updateProduct s callerRole req).1.orders = s.orders ∧
      (updateProduct s callerRole req).1.order_items = s.order_items := by
    simp only [updateProduct]
    repeat' split
    all_goals exact ⟨rfl, rfl⟩
  exact ⟨h.1, h.2,
    fun oid => by simp [orderTotalOnReread, h.1],
    fun oid => by simp [itemSnapshotsOnReread, h.2]⟩

/-- Witness for C2: a Pending one-item order, cancelled by its owner; the
single item (quantity 2, product in stock at 3) is restocked to 5 and the
status flips to "Canceled". -/
theorem cancelOrder_pending_restocks_exactly_witness :
    ([({ id := 7, user_id := 4, email := "u@x.com", total_amount := 20,
         status := "Pending", tracking_code := "Processing",
         shipping_info := none, points_used := 0 } : Order)].find?
          (fun x => x.id == 7) = some
          ({ id := 7, user_id := 4, email := "u@x.com", total_amount := 20,
             status := "Pending", tracking_code := "Processing",
             shipping_info := none, points_used := 0 } : Order)) ∧
    ((cancelOrder
        { products := [{ id := 1, title := "P1", price := 10, quantity := 3,
                          brand_segment := "nails", category_slug := "vinyl",
                          best_seller := false }],
          orders := [{ id := 7, user_id := 4, email := "u@x.com", total_amount := 20,
                       status := "Pending", tracking_code := "Processing",
                       shipping_info := none, points_used := 0 }],
          order_items := [{ order_id := 7, product_id := 1, quantity := 2,
                            price := 10, product_brand_segment := some "nails" }],
          users := [{ id := 4, points := 0 }], nextOrderId := 8 } 4 "customer" 7).2
        = .canceled 1 0) ∧
    (statusOf (cancelOrder
        { products := [{ id := 1, title := "P1", price := 10, quantity := 3,
                          brand_segment := "nails", category_slug := "vinyl",
                          best_seller := false }],
          orders := [{ id := 7, user_id := 4, email := "u@x.com", total_amount := 20,
                       status := "Pending", tracking_code := "Processing",
                       shipping_info := none, points_used := 0 }],
          order_items := [{ order_id := 7, product_id := 1, quantity := 2,
                            price := 10, product_brand_segment := some "nails" }],
          users := [{ id := 4, points := 0 }], nextOrderId := 8 } 4 "customer" 7).1 7
        = some "Canceled") ∧
    (qtyOf (cancelOrder
        { products := [{ id := 1, title := "P1", price := 10, quantity := 3,
                          brand_segment := "nails", category_slug := "vinyl",
                          best_seller := false }],
          orders := [{ id := 7, user_id := 4, email := "u@x.com", total_amount := 20,
                       status := "Pending", tracking_code := "Processing",
                       shipping_info := none, points_used := 0 }],
          order_items := [{ order_id := 7, product_id := 1, quantity := 2,
                            price := 10, product_brand_segment := some "nails" }],
          users := [{ id := 4, points := 0 }], nextOrderId := 8 } 4 "customer" 7).1.products 1
        = some 5) := by
  have h := cancelOrder_pending_restocks_exactly
    { products := [{ id := 1, title := "P1", price := 10, quantity := 3,
                      brand_segment := "nails", category_slug := "vinyl",
                      best_seller := false }],
      orders := [{ id := 7, user_id := 4, email := "u@x.com", total_amount := 20,
                   status := "Pending", tracking_code := "Processing",
                   shipping_info := none, points_used := 0 }],
      order_items := [{ order_id := 7, product_id := 1, quantity := 2,
                        price := 10, product_brand_segment := some "nails" }],
      users := [{ id := 4, points := 0 }], nextOrderId := 8 } 4 "customer" 7
    { id := 7, user_id := 4, email := "u@x.com", total_amount := 20,
      status := "Pending", tracking_code := "Processing",
      shipping_info := none, points_used := 0 }
    (by decide) (Or.inl rfl) rfl (by decide)
  refine ⟨by decide, ?_, ?_, ?_⟩
  · simpa using h.1
  · exact h.2.2.1
  · have := h.2.2.2.1 1
    simpa using this

end Diva
